import Mathlib

/-!
# Verification of the Brazilian-soccer knowledge-graph engine

Shallow embedding of the repository `brazilian_soccer_mcp` (files
`data_loader.py`, `kaggle_loader.py`, `server.py`, `models.py`,
`database.py`) and proofs about its data model and analytics operations.

Modelling conventions, fixed once for the whole file:

* A Neo4j property value used by this repository is either a string or an
  integer (`Val`).  Dates are stored by the loaders as ISO-8601 strings
  (`date.isoformat()`), so date comparison in queries is string comparison;
  the Cypher builtin `date()` is modelled as an explicit `today : String`
  parameter.
* Node/edge property maps are association lists.  Cypher `SET x.k = v`
  with a non-null `v` stores the value, and with `v = null` removes the
  property (documented Cypher behaviour).
* `database.py` installs uniqueness constraints on every node-id property
  (`create_constraints`), so a node is identified by its id string and node
  lookup is modelled with `List.find?`.  Relationship duplication is *not*
  constrained, so edges are kept in plain lists and theorems that need
  at-most-one-edge-per-endpoint-pair state it as a hypothesis.
* Cypher `MERGE` on a relationship pattern binds every existing edge of
  that type between the two endpoints and applies the following `SET` to
  each, creating a fresh edge only when none exists (`mergeEdgeSet`).
* Cypher `ORDER BY` sorts ascending with `null` ordered *after* every
  value (descending puts `null` first); the embedding uses an executable
  insertion sort, whose output order on ties is as good as Neo4j's
  unspecified tie order.
-/

namespace BrazilSoccer

/-- A property value as stored by this repository: a string or an integer. -/
inductive Val where
  | str (s : String)
  | int (n : Int)
deriving DecidableEq, Repr

/-- Attribute (property) maps of nodes and relationships. -/
abbrev Attrs := List (String × Val)

/-- Property lookup. -/
def attrGet : Attrs → String → Option Val
  | [], _ => none
  | (k', v) :: t, k => if k' = k then some v else attrGet t k

/-- Remove every binding of a key (Cypher `SET x.k = null`). -/
def attrRemove : Attrs → String → Attrs
  | [], _ => []
  | (k', v) :: t, k => if k' = k then attrRemove t k else (k', v) :: attrRemove t k

/-- Cypher `SET x.k = $v`: store the value if non-null, remove the
property if null. -/
def attrSet (a : Attrs) (k : String) (v : Option Val) : Attrs :=
  match v with
  | some v => (k, v) :: attrRemove a k
  | none => attrRemove a k

/-- Apply a sequence of `SET` items left to right. -/
def attrSets (a : Attrs) (kvs : List (String × Option Val)) : Attrs :=
  kvs.foldl (fun a kv => attrSet a kv.1 kv.2) a

theorem attrGet_attrRemove_self (a : Attrs) (k : String) :
    attrGet (attrRemove a k) k = none := by
  induction a with
  | nil => rfl
  | cons h t ih =>
    unfold attrRemove
    by_cases hk : h.1 = k
    · simpa [hk] using ih
    · simpa [attrGet, hk] using ih

theorem attrGet_attrRemove_ne (a : Attrs) (k k' : String) (h : k' ≠ k) :
    attrGet (attrRemove a k) k' = attrGet a k' := by
  induction a with
  | nil => rfl
  | cons hd t ih =>
    obtain ⟨k1, v1⟩ := hd
    by_cases hk : k1 = k
    · have h2 : ¬ k1 = k' := by rw [hk]; exact Ne.symm h
      simp [attrRemove, attrGet, hk, h2, ih, Ne.symm h]
    · by_cases hk' : k1 = k'
      · simp [attrRemove, attrGet, hk, hk', h]
      · simp [attrRemove, attrGet, hk, hk', ih]

theorem attrGet_attrSet_self (a : Attrs) (k : String) (v : Option Val) :
    attrGet (attrSet a k v) k = v := by
  cases v with
  | none => simpa [attrSet] using attrGet_attrRemove_self a k
  | some w => simp [attrSet, attrGet]

theorem attrGet_attrSet_ne (a : Attrs) (k k' : String) (v : Option Val) (h : k' ≠ k) :
    attrGet (attrSet a k v) k' = attrGet a k' := by
  cases v with
  | none => simpa [attrSet] using attrGet_attrRemove_ne a k k' h
  | some w => simp [attrSet, attrGet, Ne.symm h, attrGet_attrRemove_ne a k k' h]

theorem attrGet_attrSets_notKey (a : Attrs) (kvs : List (String × Option Val))
    (k : String) (h : ∀ kv ∈ kvs, kv.1 ≠ k) :
    attrGet (attrSets a kvs) k = attrGet a k := by
  induction kvs generalizing a with
  | nil => rfl
  | cons kv t ih =>
    have hk : kv.1 ≠ k := h kv (by simp)
    have ht : ∀ kv' ∈ t, kv'.1 ≠ k := fun kv' hm => h kv' (by simp [hm])
    calc attrGet (attrSets (attrSet a kv.1 kv.2) t) k
        = attrGet (attrSet a kv.1 kv.2) k := ih _ ht
      _ = attrGet a k := attrGet_attrSet_ne a kv.1 k kv.2 (Ne.symm hk)

/-! ## Sorting (model of Cypher `ORDER BY` and Python `sorted`) -/

/-- Insert into a sorted list. -/
def insertSorted (le : α → α → Bool) (a : α) : List α → List α
  | [] => [a]
  | b :: t => if le a b then a :: b :: t else b :: insertSorted le a t

/-- Insertion sort by a boolean comparison. -/
def sortBy (le : α → α → Bool) : List α → List α
  | [] => []
  | a :: t => insertSorted le a (sortBy le t)

theorem mem_insertSorted (le : α → α → Bool) (a x : α) (l : List α) :
    x ∈ insertSorted le a l ↔ x = a ∨ x ∈ l := by
  induction l with
  | nil => simp [insertSorted]
  | cons b t ih =>
    by_cases h : le a b
    · simp [insertSorted, h]
    · simp only [insertSorted, h, Bool.false_eq_true, if_false, List.mem_cons, ih]
      tauto

theorem mem_sortBy (le : α → α → Bool) (x : α) (l : List α) :
    x ∈ sortBy le l ↔ x ∈ l := by
  induction l with
  | nil => simp [sortBy]
  | cons a t ih => simp [sortBy, mem_insertSorted, ih]

theorem length_insertSorted (le : α → α → Bool) (a : α) (l : List α) :
    (insertSorted le a l).length = l.length + 1 := by
  induction l with
  | nil => rfl
  | cons b t ih =>
    unfold insertSorted
    by_cases h : le a b
    · simp [h]
    · simp [h, ih]

theorem length_sortBy (le : α → α → Bool) (l : List α) :
    (sortBy le l).length = l.length := by
  induction l with
  | nil => rfl
  | cons a t ih => simp [sortBy, length_insertSorted, ih]

theorem pairwise_insertSorted (le : α → α → Bool)
    (total : ∀ a b, le a b = true ∨ le b a = true)
    (trans : ∀ a b c, le a b = true → le b c = true → le a c = true)
    (a : α) (l : List α) (h : l.Pairwise (fun x y => le x y = true)) :
    (insertSorted le a l).Pairwise (fun x y => le x y = true) := by
  induction l with
  | nil => simp [insertSorted]
  | cons b t ih =>
    rcases List.pairwise_cons.mp h with ⟨hb, ht⟩
    by_cases hab : le a b
    · have heq : insertSorted le a (b :: t) = a :: b :: t := by
        simp [insertSorted, hab]
      rw [heq]
      refine List.pairwise_cons.mpr ⟨?_, h⟩
      intro x hx
      rcases List.mem_cons.mp hx with hx | hx
      · exact hx ▸ hab
      · exact trans a b x hab (hb x hx)
    · have heq : insertSorted le a (b :: t) = b :: insertSorted le a t := by
        simp [insertSorted, hab]
      rw [heq]
      have hba : le b a = true := (total a b).resolve_left (by simpa using hab)
      refine List.pairwise_cons.mpr ⟨?_, ih ht⟩
      intro x hx
      rcases (mem_insertSorted le a x t).mp hx with hx | hx
      · exact hx ▸ hba
      · exact hb x hx

theorem pairwise_sortBy (le : α → α → Bool)
    (total : ∀ a b, le a b = true ∨ le b a = true)
    (trans : ∀ a b c, le a b = true → le b c = true → le a c = true)
    (l : List α) :
    (sortBy le l).Pairwise (fun x y => le x y = true) := by
  induction l with
  | nil => simp [sortBy]
  | cons a t ih => exact pairwise_insertSorted le total trans a (sortBy le t) ih

/-! ## The property graph -/

/-- A node: its unique id (the value of its id property, unique per label
by the constraints of `database.py::create_constraints`) and its
remaining properties. -/
structure Node where
  id : String
  attrs : Attrs
deriving DecidableEq, Repr

/-- A directed relationship between two nodes (referenced by their ids),
with its properties.  Duplicate edges between the same endpoints are
representable: no database constraint forbids them. -/
structure Edge where
  src : String
  dst : String
  attrs : Attrs
deriving DecidableEq, Repr

/-- The graph snapshot: one list per node label and per relationship
type, exactly the labels and types used by the repository. -/
structure Graph where
  players : List Node := []
  teams : List Node := []
  matchNodes : List Node := []  -- the Match label (named to avoid the Lean keyword)
  competitions : List Node := []
  stadiums : List Node := []
  coaches : List Node := []
  playsFor : List Edge := []
  playedHome : List Edge := []
  playedAway : List Edge := []
  partOf : List Edge := []
  scoredIn : List Edge := []
  yellowCardIn : List Edge := []
  redCardIn : List Edge := []
deriving DecidableEq, Repr

/-- The empty graph (state after `clear_database`). -/
def emptyGraph : Graph := {}

/-- Does a node with this id exist? (`MATCH (n:L {idProp: $id})`
yields a row iff so, ids being unique per label.) -/
def hasNode (ns : List Node) (id : String) : Bool :=
  ns.any (fun n => n.id == id)

/-- Node lookup by id (unique by constraint). -/
def findNode (ns : List Node) (id : String) : Option Node :=
  ns.find? (fun n => n.id == id)

/-- Cypher `MERGE (n:L {idProp: $id})`: match the node, or create it
carrying only its id property. -/
def mergeNode (ns : List Node) (idKey id : String) : List Node :=
  if hasNode ns id then ns else ns ++ [{ id := id, attrs := [(idKey, Val.str id)] }]

/-- Apply a `SET` list to the node with the given id (no-op on others). -/
def setNodeAttrs (ns : List Node) (id : String) (kvs : List (String × Option Val)) :
    List Node :=
  ns.map (fun n => if n.id == id then { n with attrs := attrSets n.attrs kvs } else n)

/-- Cypher `MERGE (a)-[r:T]->(b) SET r....`: every existing edge between
the endpoints is bound and updated by the `SET`; if none exists a fresh
edge is created and then updated. -/
def mergeEdgeSet (es : List Edge) (src dst : String) (kvs : List (String × Option Val)) :
    List Edge :=
  if es.any (fun e => e.src == src && e.dst == dst) then
    es.map (fun e =>
      if e.src == src && e.dst == dst then { e with attrs := attrSets e.attrs kvs } else e)
  else
    es ++ [{ src := src, dst := dst, attrs := attrSets [] kvs }]

/-! ## Ingestion records (`models.py`) -/

/-- `models.Player`; dates already rendered to ISO strings as the loader
does with `.isoformat()`. -/
structure PlayerRec where
  player_id : String
  name : String
  birth_date : Option String
  nationality : String
  position : String
  jersey_number : Option Int
deriving DecidableEq, Repr

/-- `models.Team`. -/
structure TeamRec where
  team_id : String
  name : String
  city : String
  stadium : Option String := none
  founded_year : Option Int := none
  colors : Option String := none
deriving DecidableEq, Repr

/-- `models.Match` (the loader does not store `stadium_id`). -/
structure MatchRec where
  match_id : String
  date : String
  home_team_id : String
  away_team_id : String
  home_score : Int
  away_score : Int
  competition_id : String
  attendance : Option Int := none
deriving DecidableEq, Repr

/-- `models.Competition`. -/
structure CompetitionRec where
  competition_id : String
  name : String
  season : String
  type : String
  tier : Int := 1
deriving DecidableEq, Repr

/-- `models.PlayerContract` (`start_date` is required, `end_date` optional). -/
structure ContractRec where
  player_id : String
  team_id : String
  start_date : String
  end_date : Option String := none
deriving DecidableEq, Repr

/-- `models.Goal`. -/
structure GoalRec where
  player_id : String
  match_id : String
  minute : Int
  goal_type : String := "regular"
deriving DecidableEq, Repr

/-! ## Loader operations (`data_loader.py`, `kaggle_loader.py`)

Each is the meaning of the Cypher write issued by the corresponding
Python method.  A `MATCH` on a missing endpoint produces zero rows, so
the subsequent `MERGE`s of that query do nothing. -/

/-- `DataLoader.load_player`: `MERGE (p:Player {player_id}) SET p.name,
p.birth_date, p.nationality, p.position, p.jersey_number` (a `None`
parameter sets the property to null, i.e. removes it). -/
def load_player (g : Graph) (p : PlayerRec) : Graph :=
  { g with players :=
      setNodeAttrs (mergeNode g.players "player_id" p.player_id) p.player_id [
        ("name", some (.str p.name)),
         ("birth_date", p.birth_date.map .str),
         ("nationality", some (.str p.nationality)),
         ("position", some (.str p.position)),
         ("jersey_number", p.jersey_number.map .int)] }

/-- `DataLoader.load_team`. -/
def load_team (g : Graph) (t : TeamRec) : Graph :=
  { g with teams :=
      setNodeAttrs (mergeNode g.teams "team_id" t.team_id) t.team_id [
        ("name", some (.str t.name)),
         ("city", some (.str t.city)),
         ("stadium", t.stadium.map .str),
         ("founded_year", t.founded_year.map .int),
         ("colors", t.colors.map .str)] }

/-- `DataLoader.load_competition`. -/
def load_competition (g : Graph) (c : CompetitionRec) : Graph :=
  { g with competitions :=
      setNodeAttrs (mergeNode g.competitions "competition_id" c.competition_id) c.competition_id [
        ("name", some (.str c.name)),
         ("season", some (.str c.season)),
         ("type", some (.str c.type)),
         ("tier", some (.int c.tier))] }

/-- `DataLoader.load_match`: the match node is merged and updated
unconditionally; the `PLAYED_HOME` / `PLAYED_AWAY` / `PART_OF` merges
only run when home team, away team and competition all exist (the
`MATCH`es after `WITH m` otherwise yield zero rows). -/
def load_match (g : Graph) (m : MatchRec) : Graph :=
  let ms := setNodeAttrs (mergeNode g.matchNodes "match_id" m.match_id) m.match_id [
    ("date", some (.str m.date)),
    ("home_score", some (.int m.home_score)),
    ("away_score", some (.int m.away_score)),
    ("attendance", m.attendance.map .int)]
  let g1 := { g with matchNodes := ms }
  if hasNode g1.teams m.home_team_id && hasNode g1.teams m.away_team_id &&
      hasNode g1.competitions m.competition_id then
    { g1 with
       playedHome := mergeEdgeSet g1.playedHome m.home_team_id m.match_id [],
       playedAway := mergeEdgeSet g1.playedAway m.away_team_id m.match_id [],
       partOf := mergeEdgeSet g1.partOf m.match_id m.competition_id [] }
  else g1

/-- `DataLoader.load_player_contract`: `MATCH` player and team, then
`MERGE (p)-[r:PLAYS_FOR]->(t) SET r.start_date, r.end_date`. -/
def load_player_contract (g : Graph) (c : ContractRec) : Graph :=
  if hasNode g.players c.player_id && hasNode g.teams c.team_id then
    { g with playsFor :=
        mergeEdgeSet g.playsFor c.player_id c.team_id [
          ("start_date", some (.str c.start_date)),
           ("end_date", c.end_date.map .str)] }
  else g

/-- `DataLoader.load_goal`: `MATCH` player and match, then
`MERGE (p)-[r:SCORED_IN]->(m) SET r.minute, r.goal_type` — the `MERGE`
is keyed by the endpoints alone. -/
def load_goal (g : Graph) (gl : GoalRec) : Graph :=
  if hasNode g.players gl.player_id && hasNode g.matchNodes gl.match_id then
    { g with scoredIn :=
        mergeEdgeSet g.scoredIn gl.player_id gl.match_id [
          ("minute", some (.int gl.minute)),
           ("goal_type", some (.str gl.goal_type))] }
  else g

/-- `KaggleDataLoader._load_player_data` contract write
(`kaggle_loader.py` lines 437–447): `MERGE (p)-[r:PLAYS_FOR]->(t)
SET r.season = $season` — it sets no `start_date`/`end_date`. -/
def kaggle_load_contract (g : Graph) (player_id team_id season : String) : Graph :=
  if hasNode g.players player_id && hasNode g.teams team_id then
    { g with playsFor :=
        mergeEdgeSet g.playsFor player_id team_id [
          ("season", some (.str season))] }
  else g

/-! ## Value comparison

Strings in this repository's data are ASCII identifiers, names and
ISO-8601 dates, on which Cypher's and Python's string orders both agree
with code-point lexicographic order, used here. -/

/-- Code-point lexicographic order on character lists. -/
def lexLe : List Char → List Char → Bool
  | [], _ => true
  | _ :: _, [] => false
  | a :: as, b :: bs =>
    if a.toNat < b.toNat then true
    else if b.toNat < a.toNat then false
    else lexLe as bs

/-- Lexicographic string order. -/
def strLe (a b : String) : Bool := lexLe a.toList b.toList

theorem lexLe_total : ∀ a b, lexLe a b = true ∨ lexLe b a = true
  | [], _ => Or.inl rfl
  | _ :: _, [] => Or.inr rfl
  | a :: as, b :: bs => by
    by_cases h1 : a.toNat < b.toNat
    · exact Or.inl (by simp [lexLe, h1])
    · by_cases h2 : b.toNat < a.toNat
      · exact Or.inr (by simp [lexLe, h1, h2])
      · rcases lexLe_total as bs with h | h
        · exact Or.inl (by simp [lexLe, h1, h2, h])
        · exact Or.inr (by simp [lexLe, h1, h2, h])

theorem lexLe_trans : ∀ a b c, lexLe a b = true → lexLe b c = true → lexLe a c = true
  | [], _, _ => by intro _ _; rfl
  | _ :: _, [], _ => by intro h _; simp [lexLe] at h
  | _ :: _, _ :: _, [] => by intro _ h; simp [lexLe] at h
  | a :: as, b :: bs, c :: cs => by
    intro hab hbc
    simp only [lexLe] at hab hbc ⊢
    split at hab
    · split
      · rfl
      · split
        · exfalso
          rename_i h1 h2 h3
          split at hbc
          · omega
          · split at hbc
            · simp at hbc
            · omega
        · exfalso
          rename_i h1 h2 h3
          split at hbc
          · omega
          · split at hbc
            · simp at hbc
            · omega
    · split at hab
      · simp at hab
      · split at hbc
        · rename_i h1 h2 h3
          simp [show a.toNat < c.toNat by omega]
        · split at hbc
          · simp at hbc
          · rename_i h1 h2 h3 h4
            have : ¬ a.toNat < c.toNat := by omega
            have : ¬ c.toNat < a.toNat := by omega
            simp [*]
            exact lexLe_trans as bs cs hab hbc

theorem lexLe_antisymm : ∀ a b, lexLe a b = true → lexLe b a = true → a = b
  | [], [] => by intro _ _; rfl
  | [], _ :: _ => by intro _ h; simp [lexLe] at h
  | _ :: _, [] => by intro h _; simp [lexLe] at h
  | a :: as, b :: bs => by
    intro hab hba
    by_cases h1 : a.toNat < b.toNat
    · have h2 : ¬ b.toNat < a.toNat := by omega
      simp [lexLe, h1, h2] at hba
    · by_cases h2 : b.toNat < a.toNat
      · simp [lexLe, h1, h2] at hab
      · simp only [lexLe, if_neg h1, if_neg h2] at hab
        simp only [lexLe, if_neg h2, if_neg h1] at hba
        have hc : a = b := by
          apply Char.ext
          apply UInt32.ext
          simpa [Char.toNat] using (show a.toNat = b.toNat by omega)
        exact congrArg₂ (· :: ·) hc (lexLe_antisymm as bs hab hba)

theorem strLe_total (a b : String) : strLe a b = true ∨ strLe b a = true :=
  lexLe_total a.toList b.toList

theorem strLe_trans (a b c : String) :
    strLe a b = true → strLe b c = true → strLe a c = true :=
  lexLe_trans a.toList b.toList c.toList

theorem strLe_antisymm (a b : String) :
    strLe a b = true → strLe b a = true → a = b := by
  intro h1 h2
  have h := lexLe_antisymm a.toList b.toList h1 h2
  cases a
  cases b
  exact congrArg String.mk (by simpa [String.toList] using h)

/-- Order on property values for `ORDER BY` (string/string and int/int
comparisons are the only ones this repository's data produces; the
cross-type branch is fixed arbitrarily). -/
def valLe : Val → Val → Bool
  | .str a, .str b => strLe a b
  | .int a, .int b => decide (a ≤ b)
  | .str _, .int _ => true
  | .int _, .str _ => false

theorem valLe_total (a b : Val) : valLe a b = true ∨ valLe b a = true := by
  cases a <;> cases b <;> simp [valLe]
  · exact strLe_total _ _
  · omega

theorem valLe_trans (a b c : Val) :
    valLe a b = true → valLe b c = true → valLe a c = true := by
  cases a <;> cases b <;> cases c <;> simp [valLe]
  · exact strLe_trans _ _ _
  · omega

theorem valLe_antisymm (a b : Val) :
    valLe a b = true → valLe b a = true → a = b := by
  cases a <;> cases b <;> simp [valLe]
  · exact strLe_antisymm _ _
  · omega

/-- `ORDER BY` sort key order: ascending with null greatest
(Neo4j places null rows last in ascending order). -/
def keyLe : Option Val → Option Val → Bool
  | _, none => true
  | none, some _ => false
  | some a, some b => valLe a b

theorem keyLe_total (a b : Option Val) : keyLe a b = true ∨ keyLe b a = true := by
  cases a <;> cases b <;> simp [keyLe]
  exact valLe_total _ _

theorem keyLe_trans (a b c : Option Val) :
    keyLe a b = true → keyLe b c = true → keyLe a c = true := by
  cases a <;> cases b <;> cases c <;> simp [keyLe]
  exact valLe_trans _ _ _

theorem keyLe_antisymm (a b : Option Val) :
    keyLe a b = true → keyLe b a = true → a = b := by
  cases a <;> cases b <;> simp [keyLe]
  exact valLe_antisymm _ _

/-- Two-key lexicographic `ORDER BY key1, key2`. -/
def lexKeyLe (a b : Option Val × Option Val) : Bool :=
  if a.1 = b.1 then keyLe a.2 b.2 else keyLe a.1 b.1

theorem lexKeyLe_total (a b : Option Val × Option Val) :
    lexKeyLe a b = true ∨ lexKeyLe b a = true := by
  unfold lexKeyLe
  by_cases h : a.1 = b.1
  · simp [h]
    exact keyLe_total _ _
  · simp [h, Ne.symm h]
    exact keyLe_total _ _

theorem lexKeyLe_trans (a b c : Option Val × Option Val)
    (h1 : lexKeyLe a b = true) (h2 : lexKeyLe b c = true) : lexKeyLe a c = true := by
  unfold lexKeyLe at h1 h2 ⊢
  by_cases hab : a.1 = b.1
  · rw [if_pos hab] at h1
    by_cases hbc : b.1 = c.1
    · rw [if_pos hbc] at h2
      rw [if_pos (hab.trans hbc)]
      exact keyLe_trans _ _ _ h1 h2
    · rw [if_neg hbc] at h2
      have hac : ¬ a.1 = c.1 := fun h => hbc (hab ▸ h)
      rw [if_neg hac, hab]
      exact h2
  · rw [if_neg hab] at h1
    by_cases hbc : b.1 = c.1
    · rw [if_pos hbc] at h2
      have hac : ¬ a.1 = c.1 := fun h => hab (h.trans hbc.symm)
      rw [if_neg hac, ← hbc]
      exact h1
    · rw [if_neg hbc] at h2
      by_cases hac : a.1 = c.1
      · exfalso
        apply hab
        have h2a : keyLe b.1 a.1 = true := by rw [hac]; exact h2
        exact keyLe_antisymm _ _ h1 h2a
      · rw [if_neg hac]
        exact keyLe_trans _ _ _ h1 h2

/-! ## Query-side helpers (`server.py`) -/

/-- ASCII lowering of a string, character by character (model of Cypher
`toLower` / Python `.lower()` on this repository's data). -/
def lowerStr (s : String) : String := ⟨s.toList.map Char.toLower⟩

/-- Is `needle` a contiguous substring of the list? -/
def listHasSub (needle : List Char) : List Char → Bool
  | [] => needle.isEmpty
  | c :: t => needle.isPrefixOf (c :: t) || listHasSub needle t

/-- Cypher `toLower(hay) CONTAINS toLower(needle)`. -/
def ciContains (hay needle : String) : Bool :=
  listHasSub (lowerStr needle).toList (lowerStr hay).toList

/-- Case-insensitive containment test on a nullable property (null
yields no row in a Cypher `WHERE`). -/
def optContains (v : Option Val) (needle : String) : Bool :=
  match v with
  | some (.str s) => ciContains s needle
  | _ => false

/-- Cypher `toLower(prop) = toLower($param)` on a nullable property. -/
def optCiEq (v : Option Val) (w : String) : Bool :=
  match v with
  | some (.str s) => lowerStr s == lowerStr w
  | _ => false

/-- An integer score property, as used in arithmetic and comparisons
(`m.home_score` etc.; the loaders always store these as integers). -/
def scoreInt (m : Node) (k : String) : Int :=
  match attrGet m.attrs k with
  | some (.int n) => n
  | _ => 0

/-- Result of an operation that first resolves an identifier: a distinct
not-found signal, or a (possibly empty) row collection. -/
inductive QueryResult (α : Type) where
  | notFound
  | ok (rows : List α)
deriving DecidableEq, Repr

/-! ## Analytics operations (`server.py`)

Each definition is the meaning of the Cypher query (plus the Python
post-processing) of the corresponding `server.py` tool.  The control
flow producing "... not found" messages is kept as the `notFound`
constructor; an empty result set is `ok []`. -/

/-- Teams that an existing `PLAYS_FOR` edge connects a player to
(`(p)-[:PLAYS_FOR]->(t:Team)`). -/
def playerTeams (g : Graph) (pid : String) : List Node :=
  (g.playsFor.filter (fun e => e.src == pid)).filterMap
    (fun e => findNode g.teams e.dst)

/-- One row of `search_player`. -/
structure PlayerHit where
  player_id : String
  name : Option Val
  nationality : Option Val
  position : Option Val
  birth_date : Option Val
  teams : List Val
deriving DecidableEq, Repr

/-- `server.search_player`: substring-match on the player name
(case-insensitive); with a team filter, require a `PLAYS_FOR` edge to a
team whose name matches and collect only those teams; with a position
filter, require case-insensitive equality.  The final `OPTIONAL MATCH`
reuses the already-bound `t` when the team filter is present.  This
operation has no identifier lookup, hence no not-found branch. -/
def search_player (g : Graph) (name : String) (team position : Option String) :
    QueryResult PlayerHit :=
  .ok (g.players.filterMap (fun p =>
    if optContains (attrGet p.attrs "name") name then
      let tRows : List Node :=
        match team with
        | none => playerTeams g p.id
        | some tm => (playerTeams g p.id).filter
            (fun t => optContains (attrGet t.attrs "name") tm)
      if (match team with | none => true | some _ => !tRows.isEmpty) then
        if (match position with
            | none => true
            | some ps => optCiEq (attrGet p.attrs "position") ps) then
          some { player_id := p.id,
                 name := attrGet p.attrs "name",
                 nationality := attrGet p.attrs "nationality",
                 position := attrGet p.attrs "position",
                 birth_date := attrGet p.attrs "birth_date",
                 teams := (tRows.filterMap (fun t => attrGet t.attrs "name")).eraseDups }
        else none
      else none
    else none))

/-- Matches of competitions with the given season that a match node is
`PART_OF` (one row per such `PART_OF` edge). -/
def seasonRowsOf (g : Graph) (m : Node) (season : String) : List Edge :=
  (g.partOf.filter (fun e => e.src == m.id)).filter
    (fun e => (findNode g.competitions e.dst).any
      (fun c => attrGet c.attrs "season" == some (.str season)))

/-- `SCORED_IN` row count of `get_player_stats` — rows of
`(p)-[g:SCORED_IN]->(m:Match)` and, with a season, additionally
`-[:PART_OF]->(c:Competition) WHERE c.season = $season`. -/
def playerGoalsCount (g : Graph) (pid : String) (season : Option String) : Nat :=
  ((g.scoredIn.filter (fun e => e.src == pid)).flatMap (fun e =>
    match findNode g.matchNodes e.dst with
    | none => []
    | some m =>
      match season with
      | none => [e]
      | some s => (seasonRowsOf g m s).map (fun _ => e))).length

/-- `server.get_player_stats` result record. -/
structure PlayerStats where
  goals : Nat
  yellow_cards : Nat
  red_cards : Nat
deriving DecidableEq, Repr

/-- `server.get_player_stats`: not-found for an unknown player id,
otherwise goal and card counts. -/
def get_player_stats (g : Graph) (pid : String) (season : Option String) :
    QueryResult PlayerStats :=
  if hasNode g.players pid then
    .ok [{ goals := playerGoalsCount g pid season,
           yellow_cards := ((g.yellowCardIn.filter (fun e => e.src == pid)).filter
             (fun e => hasNode g.matchNodes e.dst)).length,
           red_cards := ((g.redCardIn.filter (fun e => e.src == pid)).filter
             (fun e => hasNode g.matchNodes e.dst)).length }]
  else .notFound

/-- One career stint of `get_player_career`. -/
structure CareerStint where
  team : Option Val
  team_id : String
  start_date : Option Val
  end_date : Option Val
deriving DecidableEq, Repr

/-- Python truthiness of a collected property value (`if c["team"]`). -/
def pyTruthy : Option Val → Bool
  | none => false
  | some (.str s) => !(s == "")
  | some (.int n) => !(n == 0)

/-- The Python sort key `x["start_date"] or ""` of `get_player_career`:
a missing (or falsy) start date sorts as the empty string, i.e. first. -/
def careerKey (s : CareerStint) : String :=
  match s.start_date with
  | some (.str d) => if d == "" then "" else d
  | _ => ""

/-- `server.get_player_career`: not-found for an unknown player id;
otherwise all `PLAYS_FOR` stints resolved to their team, entries with a
falsy team name dropped, sorted ascending by `start_date or ""`. -/
def get_player_career (g : Graph) (pid : String) : QueryResult CareerStint :=
  if hasNode g.players pid then
    .ok (sortBy (fun a b => strLe (careerKey a) (careerKey b))
      ((g.playsFor.filter (fun e => e.src == pid)).filterMap (fun e =>
        match findNode g.teams e.dst with
        | none => none
        | some t =>
          if pyTruthy (attrGet t.attrs "name") then
            some { team := attrGet t.attrs "name", team_id := t.id,
                   start_date := attrGet e.attrs "start_date",
                   end_date := attrGet e.attrs "end_date" }
          else none)))
  else .notFound

/-- One roster row of `get_team_roster`. -/
structure RosterRow where
  player_id : String
  name : Option Val
  position : Option Val
  jersey_number : Option Val
  joined : Option Val
deriving DecidableEq, Repr

/-- The roster `WHERE r.end_date IS NULL OR r.end_date >= date()`
(dates are ISO strings; `today` stands for `date()`). -/
def rosterDateOK (e : Edge) (today : String) : Bool :=
  match attrGet e.attrs "end_date" with
  | none => true
  | some (.str d) => strLe today d
  | some (.int _) => false

/-- The roster sort key of `ORDER BY p.position, p.name`. -/
def rosterKey (r : RosterRow) : Option Val × Option Val := (r.position, r.name)

/-- `server.get_team_roster`: not-found for an unknown team id;
otherwise the players with a `PLAYS_FOR` edge to the team whose
`end_date` is null or ≥ today, ordered by position then name. -/
def get_team_roster (g : Graph) (team_id today : String) : QueryResult RosterRow :=
  if hasNode g.teams team_id then
    .ok (sortBy (fun a b => lexKeyLe (rosterKey a) (rosterKey b))
      ((g.playsFor.filter (fun e => e.dst == team_id && rosterDateOK e today)).filterMap
        (fun e =>
          (findNode g.players e.src).map (fun p =>
            { player_id := p.id,
              name := attrGet p.attrs "name",
              position := attrGet p.attrs "position",
              jersey_number := attrGet p.attrs "jersey_number",
              joined := attrGet e.attrs "start_date" }))))
  else .notFound

/-- Combined team statistics of `get_team_stats`. -/
structure TeamStats where
  matchesPlayed : Int
  wins : Int
  draws : Int
  losses : Int
  goals_for : Int
  goals_against : Int
deriving DecidableEq, Repr

/-- The match nodes reached by `(t)-[:PLAYED_HOME/AWAY]->(m:Match)`,
optionally one row per `PART_OF` edge into a competition with the
requested season. -/
def orientedMatches (g : Graph) (edges : List Edge) (team_id : String)
    (season : Option String) : List Node :=
  let ms := (edges.filter (fun e => e.src == team_id)).filterMap
    (fun e => findNode g.matchNodes e.dst)
  match season with
  | none => ms
  | some s => ms.flatMap (fun m => (seasonRowsOf g m s).map (fun _ => m))

/-- One orientation's aggregation: count, win/draw/loss split comparing
the own-score and against-score fields, and both goal sums. -/
def sumOriented (ms : List Node) (forKey agKey : String) : TeamStats :=
  { matchesPlayed := ms.length,
    wins := (ms.filter (fun m => scoreInt m forKey > scoreInt m agKey)).length,
    draws := (ms.filter (fun m => scoreInt m forKey == scoreInt m agKey)).length,
    losses := (ms.filter (fun m => scoreInt m forKey < scoreInt m agKey)).length,
    goals_for := (ms.map (fun m => scoreInt m forKey)).sum,
    goals_against := (ms.map (fun m => scoreInt m agKey)).sum }

/-- Fieldwise sum of the home and away aggregates (the Python
`total_* = home + away` block). -/
def addStats (a b : TeamStats) : TeamStats :=
  { matchesPlayed := a.matchesPlayed + b.matchesPlayed,
    wins := a.wins + b.wins,
    draws := a.draws + b.draws,
    losses := a.losses + b.losses,
    goals_for := a.goals_for + b.goals_for,
    goals_against := a.goals_against + b.goals_against }

/-- `server.get_team_stats`: not-found for an unknown team id; otherwise
the home aggregation (own score = `home_score`) plus the away
aggregation (own score = `away_score`).  The formatting layer also
derives goal difference and a float win rate, not modelled here. -/
def get_team_stats (g : Graph) (team_id : String) (season : Option String) :
    QueryResult TeamStats :=
  if hasNode g.teams team_id then
    .ok [addStats
      (sumOriented (orientedMatches g g.playedHome team_id season) "home_score" "away_score")
      (sumOriented (orientedMatches g g.playedAway team_id season) "away_score" "home_score")]
  else .notFound

/-- One selected head-to-head row: the match data together with the
re-matched home and away teams. -/
structure H2HRow where
  date : Option Val
  home_id : String
  away_id : String
  home_score : Int
  away_score : Int
deriving DecidableEq, Repr

/-- Is there an edge from `src` to `dst` in the list? -/
def hasEdge (es : List Edge) (src dst : String) : Bool :=
  es.any (fun e => e.src == src && e.dst == dst)

/-- The head-to-head `WHERE`: the match was played between the two teams
in either orientation. -/
def h2hSelected (g : Graph) (t1 t2 : String) (m : Node) : Bool :=
  (hasEdge g.playedHome t1 m.id && hasEdge g.playedAway t2 m.id) ||
  (hasEdge g.playedHome t2 m.id && hasEdge g.playedAway t1 m.id)

/-- The head-to-head match rows: selected matches, re-matched with
`(home:Team)-[:PLAYED_HOME]->(m)<-[:PLAYED_AWAY]-(away:Team)` (one row
per such pair of edges), ordered by date descending. -/
def h2hRows (g : Graph) (t1 t2 : String) : List H2HRow :=
  sortBy (fun a b => keyLe b.date a.date)
    ((g.matchNodes.filter (h2hSelected g t1 t2)).flatMap (fun m =>
      (g.playedHome.filter (fun e => e.dst == m.id)).flatMap (fun he =>
        (g.playedAway.filter (fun e => e.dst == m.id)).filterMap (fun ae =>
          match findNode g.teams he.src, findNode g.teams ae.src with
          | some ht, some awt =>
            some { date := attrGet m.attrs "date",
                   home_id := ht.id, away_id := awt.id,
                   home_score := scoreInt m "home_score",
                   away_score := scoreInt m "away_score" }
          | _, _ => none))))

/-- Head-to-head statistics (the Python accumulation loop's state). -/
structure H2HStats where
  total : Nat
  team1_wins : Nat
  team2_wins : Nat
  draws : Nat
  team1_goals : Int
  team2_goals : Int
deriving DecidableEq, Repr

/-- One step of the Python loop: a row is attributed by comparing the
row's `home_id` with `team1_id`. -/
def h2hStep (team1_id : String) (s : H2HStats) (r : H2HRow) : H2HStats :=
  if r.home_id == team1_id then
    { s with
        team1_goals := s.team1_goals + r.home_score,
        team2_goals := s.team2_goals + r.away_score,
        team1_wins := if r.home_score > r.away_score then s.team1_wins + 1 else s.team1_wins,
        team2_wins := if r.home_score < r.away_score then s.team2_wins + 1 else s.team2_wins,
        draws := if r.home_score = r.away_score then s.draws + 1 else s.draws }
  else
    { s with
        team1_goals := s.team1_goals + r.away_score,
        team2_goals := s.team2_goals + r.home_score,
        team1_wins := if r.away_score > r.home_score then s.team1_wins + 1 else s.team1_wins,
        team2_wins := if r.away_score < r.home_score then s.team2_wins + 1 else s.team2_wins,
        draws := if r.away_score = r.home_score then s.draws + 1 else s.draws }

/-- Head-to-head result: the team lookup can fail, the match list can be
empty (the code answers "No matches found" before computing statistics),
or statistics are produced. -/
inductive H2HResult where
  | notFound
  | noMatches
  | stats (s : H2HStats)
deriving DecidableEq, Repr

/-- `server.get_head_to_head`. -/
def get_head_to_head (g : Graph) (team1_id team2_id : String) : H2HResult :=
  if hasNode g.teams team1_id && hasNode g.teams team2_id then
    let rows := h2hRows g team1_id team2_id
    if rows.isEmpty then .noMatches
    else .stats (rows.foldl (h2hStep team1_id)
      { total := rows.length, team1_wins := 0, team2_wins := 0, draws := 0,
        team1_goals := 0, team2_goals := 0 })
  else .notFound

/-- One top-scorers row. -/
structure ScorerRow where
  player_id : String
  name : Option Val
  goals : Nat
  team : Option Val
deriving DecidableEq, Repr

/-- Rows of `(p)-[g:SCORED_IN]->(m:Match)-[:PART_OF]->(c:Competition
{competition_id, season})` for one player — one per (goal edge,
`PART_OF` edge) combination. -/
def scorerGoalRows (g : Graph) (cid season pid : String) : List Edge :=
  (g.scoredIn.filter (fun e => e.src == pid)).flatMap (fun e =>
    match findNode g.matchNodes e.dst with
    | none => []
    | some m => ((g.partOf.filter (fun po => po.src == m.id)).filter (fun po =>
        (findNode g.competitions po.dst).any (fun c =>
          c.id == cid && attrGet c.attrs "season" == some (.str season)))).map
        (fun _ => e))

/-- The `WITH p, count(g) as goals` grouping: only players with at least
one row survive the aggregation. -/
def scorerCounts (g : Graph) (cid season : String) : List (Node × Nat) :=
  g.players.filterMap (fun p =>
    let n := (scorerGoalRows g cid season p.id).length
    if n == 0 then none else some (p, n))

/-- `server.get_competition_top_scorers`: not-found for a missing
(competition, season) pair; otherwise count goals per player, order by
count descending, truncate to `limit`, then require `(p)-[:PLAYS_FOR]->
(t:Team)` (players without any team drop out here) and attach the first
collected distinct team name; final `ORDER BY goals DESC`. -/
def get_competition_top_scorers (g : Graph) (cid season : String) (limit : Nat) :
    QueryResult ScorerRow :=
  if g.competitions.any (fun c => c.id == cid &&
      attrGet c.attrs "season" == some (.str season)) then
    .ok (sortBy (fun a b => decide (b.goals ≤ a.goals))
      (((sortBy (fun a b => decide (b.2 ≤ a.2)) (scorerCounts g cid season)).take
          limit).filterMap (fun pc =>
        match playerTeams g pc.1.id with
        | [] => none
        | ts => some { player_id := pc.1.id,
                       name := attrGet pc.1.attrs "name",
                       goals := pc.2,
                       team := ((ts.filterMap (fun t => attrGet t.attrs "name")).eraseDups).head? })))
  else .notFound

/-- One common-teammates row. -/
structure TeammateHit where
  name : Option Val
  player_id : String
  teams_with_p1 : List Val
  teams_with_p2 : List Val
deriving DecidableEq, Repr

/-- Teams shared between two players: reached from `pa` by `PLAYS_FOR`
and also linked to `pb` by `PLAYS_FOR`. -/
def sharedTeams (g : Graph) (pa pb : String) : List Node :=
  (playerTeams g pa).filter (fun t => hasEdge g.playsFor pb t.id)

/-- `server.find_common_teammates`: not-found when either player id is
unknown; otherwise every other player sharing at least one club with
each of the two (no tenure-overlap check), with the distinct shared team
names per side. -/
def find_common_teammates (g : Graph) (p1 p2 : String) : QueryResult TeammateHit :=
  if hasNode g.players p1 && hasNode g.players p2 then
    .ok (g.players.filterMap (fun tm =>
      if tm.id == p1 || tm.id == p2 then none
      else
        let ts1 := sharedTeams g p1 tm.id
        let ts2 := sharedTeams g p2 tm.id
        if ts1.isEmpty || ts2.isEmpty then none
        else some { name := attrGet tm.attrs "name", player_id := tm.id,
                    teams_with_p1 := (ts1.filterMap (fun t => attrGet t.attrs "name")).eraseDups,
                    teams_with_p2 := (ts2.filterMap (fun t => attrGet t.attrs "name")).eraseDups }))
  else .notFound

/-- One row of `find_players_who_played_for_both_teams`. -/
structure BothTeamsRow where
  player_id : String
  player : Option Val
  team1_start : Option Val
  team1_end : Option Val
  team2_start : Option Val
  team2_end : Option Val
deriving DecidableEq, Repr

/-- `server.find_players_who_played_for_both_teams`: if either team id
is unknown the initial `MATCH` yields zero rows; otherwise one row per
player per pair of `PLAYS_FOR` edges to the two teams, sorted by
`ORDER BY r1.start_date` (ascending, null keys last). -/
def find_players_who_played_for_both_teams (g : Graph) (team1_id team2_id : String) :
    List BothTeamsRow :=
  if hasNode g.teams team1_id && hasNode g.teams team2_id then
    sortBy (fun a b => keyLe a.team1_start b.team1_start)
      (g.players.flatMap (fun p =>
        (g.playsFor.filter (fun e => e.src == p.id && e.dst == team1_id)).flatMap
          (fun e1 =>
            (g.playsFor.filter (fun e => e.src == p.id && e.dst == team2_id)).map
              (fun e2 =>
                { player_id := p.id, player := attrGet p.attrs "name",
                  team1_start := attrGet e1.attrs "start_date",
                  team1_end := attrGet e1.attrs "end_date",
                  team2_start := attrGet e2.attrs "start_date",
                  team2_end := attrGet e2.attrs "end_date" }))))
  else []

/-- One row of `search_matches`. -/
structure MatchHit where
  match_id : String
  date : Option Val
  home_score : Int
  away_score : Int
  home_team : Option Val
  away_team : Option Val
  competition : Option Val
  season : Option Val
deriving DecidableEq, Repr

/-- The date-range filters of `search_matches` (`m.date >= $date_from`,
`m.date <= $date_to`; a null or non-string date yields no row). -/
def matchDateOK (d : Option Val) (date_from date_to : Option String) : Bool :=
  (match date_from with
   | none => true
   | some lo => match d with | some (.str s) => strLe lo s | _ => false) &&
  (match date_to with
   | none => true
   | some hi => match d with | some (.str s) => strLe s hi | _ => false)

/-- `server.search_matches`: rows require home team, away team and
competition to exist (a match missing any of them is omitted); optional
team/date/competition filters; ordered by date descending, first 20
rows.  Never a not-found signal. -/
def search_matches (g : Graph) (team date_from date_to competition : Option String) :
    QueryResult MatchHit :=
  .ok ((sortBy (fun a b => keyLe b.date a.date)
    (g.matchNodes.flatMap (fun m =>
      (g.playedHome.filter (fun e => e.dst == m.id)).flatMap (fun he =>
        (g.playedAway.filter (fun e => e.dst == m.id)).flatMap (fun ae =>
          (g.partOf.filter (fun po => po.src == m.id)).filterMap (fun po =>
            match findNode g.teams he.src, findNode g.teams ae.src,
                findNode g.competitions po.dst with
            | some ht, some awt, some c =>
              if (match team with
                  | none => true
                  | some tm => optContains (attrGet ht.attrs "name") tm ||
                      optContains (attrGet awt.attrs "name") tm) &&
                 matchDateOK (attrGet m.attrs "date") date_from date_to &&
                 (match competition with
                  | none => true
                  | some cn => optContains (attrGet c.attrs "name") cn) then
                some { match_id := m.id,
                       date := attrGet m.attrs "date",
                       home_score := scoreInt m "home_score",
                       away_score := scoreInt m "away_score",
                       home_team := attrGet ht.attrs "name",
                       away_team := attrGet awt.attrs "name",
                       competition := attrGet c.attrs "name",
                       season := attrGet c.attrs "season" }
              else none
            | _, _, _ => none)))))).take 20)

/-! ## Concrete graphs used by the theorems

`sampleGraph` loads (a subset of) the embedded sample data of
`data_loader.get_sample_data`, through the loader operations. -/

/-- Sample teams, competition, players, matches, contracts and goals from
`data_loader.get_sample_data`, loaded in the loader's order. -/
def sampleGraph : Graph :=
  let g := emptyGraph
  let g := load_team g ⟨"T001", "Flamengo", "Rio de Janeiro", some "Maracanã", some 1895, some "Red and Black"⟩
  let g := load_team g ⟨"T002", "Fluminense", "Rio de Janeiro", some "Maracanã", some 1902, some "Maroon, Green and White"⟩
  let g := load_team g ⟨"T004", "Palmeiras", "São Paulo", some "Allianz Parque", some 1914, some "Green and White"⟩
  let g := load_competition g ⟨"C001", "Campeonato Brasileiro Série A", "2023", "league", 1⟩
  let g := load_player g ⟨"P001", "Gabriel Barbosa (Gabigol)", some "1996-08-30", "Brazilian", "Forward", some 10⟩
  let g := load_player g ⟨"P002", "Pedro", some "1997-06-20", "Brazilian", "Forward", some 9⟩
  let g := load_match g ⟨"M001", "2023-04-16", "T001", "T002", 2, 1, "C001", some 65000⟩
  let g := load_match g ⟨"M005", "2023-08-12", "T001", "T004", 3, 2, "C001", some 70000⟩
  let g := load_player_contract g ⟨"P001", "T001", "2019-01-01", none⟩
  let g := load_player_contract g ⟨"P002", "T001", "2020-01-01", none⟩
  let g := load_goal g ⟨"P001", "M001", 23, "regular"⟩
  let g := load_goal g ⟨"P002", "M001", 67, "penalty"⟩
  g

/-- C2: for the graph in which T001 has `PLAYED_HOME` edges to exactly
M001 (2–1) and M005 (3–2) and no `PLAYED_AWAY` edges, `get_team_stats`
for T001 without season filter yields matches=2, wins=2, draws=0,
losses=0, goals_for=5, goals_against=3, summing the home and away
orientations separately with the team's own score field as "for". -/
theorem c2_team_stats_example :
    (sampleGraph.playedHome.filter (fun e => e.src == "T001")).map (fun e => e.dst) =
        ["M001", "M005"] ∧
    sampleGraph.playedAway.filter (fun e => e.src == "T001") = [] ∧
    get_team_stats sampleGraph "T001" none =
      .ok [{ matchesPlayed := 2, wins := 2, draws := 0, losses := 0,
             goals_for := 5, goals_against := 3 }] := by
  refine ⟨by decide, by decide, by decide⟩

/-- Player and match pre-loaded for the duplicate-goal scenario (the
match node is created by `load_match` even though its team/competition
edges cannot be, exactly as the Cypher behaves). -/
def goalGraph : Graph :=
  load_match (load_player emptyGraph
      ⟨"P001", "Gabriel Barbosa (Gabigol)", some "1996-08-30", "Brazilian", "Forward", some 10⟩)
    ⟨"M006", "2023-09-03", "T002", "T001", 0, 3, "C001", some 60000⟩

/-- The two sample goals of P001 in M006 (`data_loader.get_sample_data`),
loaded in order. -/
def goalGraph2 : Graph :=
  load_goal (load_goal goalGraph ⟨"P001", "M006", 15, "regular"⟩)
    ⟨"P001", "M006", 50, "penalty"⟩

/-- C6: loading the two sample goals of P001 in M006 leaves a single
`SCORED_IN` edge carrying the second goal's minute and type — the
endpoint-keyed `MERGE` of `load_goal` overwrites instead of recording a
second edge, contradicting the documented zero-or-more cardinality and
the sample data's intent (match M006 is recorded as 0–3 with three
listed goals, two of them by P001). -/
theorem c6_second_goal_overwrites :
    (goalGraph2.scoredIn.filter (fun e => e.src == "P001" && e.dst == "M006")).length = 1 ∧
    goalGraph2.scoredIn.map
        (fun e => (e.src, e.dst, attrGet e.attrs "minute", attrGet e.attrs "goal_type")) =
      [("P001", "M006", some (.int 50), some (.str "penalty"))] := by
  refine ⟨by decide, by decide⟩

/-- The property named `k` of the node with the given id. -/
def getNodeAttr (ns : List Node) (id k : String) : Option Val :=
  (findNode ns id).bind (fun n => attrGet n.attrs k)

/-- P001 as first loaded (with a birth date). -/
def c7FirstLoad : Graph :=
  load_player emptyGraph
    ⟨"P001", "Gabriel Barbosa (Gabigol)", some "1996-08-30", "Brazilian", "Forward", some 10⟩

/-- The same player upserted again with only `birth_date` changed — to
`None`, which the generated `SET p.birth_date = $birth_date` stores as
null, removing the property. -/
def c7SecondLoad : Graph :=
  load_player c7FirstLoad
    ⟨"P001", "Gabriel Barbosa (Gabigol)", none, "Brazilian", "Forward", some 10⟩

/-- C7 counterexample: re-upserting P001 with only `birth_date` changed
(to `None`) does not leave the previously-set `birth_date` untouched —
the attribute, not mentioned with any new non-null value, is removed
(`SET` to null deletes a property). -/
theorem c7_counterexample :
    getNodeAttr c7FirstLoad.players "P001" "birth_date" = some (.str "1996-08-30") ∧
    getNodeAttr c7SecondLoad.players "P001" "birth_date" = none := by
  refine ⟨by decide, by decide⟩

/-- The claimed ordering of C9: missing start dates as the lowest value
(the null handling of `get_player_career`'s Python key
`x["start_date"] or ""`). -/
def nullsFirstLe (a b : Option Val) : Bool :=
  match a, b with
  | none, _ => true
  | some _, none => false
  | some x, some y => valLe x y

/-- Two teams and two players with stints at both; PX's stint at T001
comes from the Kaggle loader, which sets no `start_date`. -/
def c9Graph : Graph :=
  let g := emptyGraph
  let g := load_team g ⟨"T001", "Flamengo", "Rio de Janeiro", none, none, none⟩
  let g := load_team g ⟨"T005", "Santos", "Santos", none, none, none⟩
  let g := load_player g ⟨"PX", "Xavier", none, "Brazilian", "Forward", none⟩
  let g := load_player g ⟨"PY", "Yuri", none, "Brazilian", "Forward", none⟩
  let g := kaggle_load_contract g "PX" "T001" "2015"
  let g := load_player_contract g ⟨"PX", "T005", "2010-01-01", none⟩
  let g := load_player_contract g ⟨"PY", "T001", "2020-01-01", none⟩
  let g := load_player_contract g ⟨"PY", "T005", "2021-01-01", none⟩
  g

/-- C9 counterexample: for teams T001, T005 the result lists PY (start
date "2020-01-01") before PX (missing start date) — Cypher's `ORDER BY
r1.start_date` puts the null key last, so the list is *not* sorted with
a missing start date as the lowest value, unlike the career
operation's null handling. -/
theorem c9_counterexample :
    ((find_players_who_played_for_both_teams c9Graph "T001" "T005").map
        (fun r => r.player_id)) = ["PY", "PX"] ∧
    ¬ ((find_players_who_played_for_both_teams c9Graph "T001" "T005").map
        (fun r => r.team1_start)).Pairwise (fun a b => nullsFirstLe a b = true) := by
  refine ⟨by decide, by decide⟩

/-- C9 amended: the players-for-both-teams result is sorted ascending by
the first team's stint `start_date` with a missing `start_date` ordered
last (the database's `ORDER BY` null placement) — it coincides with the
career operation's nulls-first rule only when every stint has a start
date, as all `load_player_contract`-written stints do. -/
theorem c9_both_teams_sorted (g : Graph) (team1_id team2_id : String) :
    (find_players_who_played_for_both_teams g team1_id team2_id).Pairwise
      (fun a b => keyLe a.team1_start b.team1_start = true) := by
  unfold find_players_who_played_for_both_teams
  split
  · exact pairwise_sortBy
      (fun (a b : BothTeamsRow) => keyLe a.team1_start b.team1_start)
      (fun a b => keyLe_total a.team1_start b.team1_start)
      (fun a b c => keyLe_trans a.team1_start b.team1_start c.team1_start) _
  · exact List.Pairwise.nil

/-- C8: identifier-keyed operations (roster, career, stats) answer a
missing id with the distinct `notFound` signal, while the set-returning
operations (player search, match search, common teammates) always
produce an `ok` row collection — empty when the filters match nothing —
and the two outcomes are distinguishable. -/
theorem c8_notfound_vs_empty :
    (∀ g tid today, hasNode g.teams tid = false →
       get_team_roster g tid today = .notFound) ∧
    (∀ g pid, hasNode g.players pid = false →
       get_player_career g pid = .notFound) ∧
    (∀ g pid season, hasNode g.players pid = false →
       get_player_stats g pid season = .notFound) ∧
    (∀ g name team position, ∃ rows, search_player g name team position = .ok rows) ∧
    (∀ g team date_from date_to competition,
       ∃ rows, search_matches g team date_from date_to competition = .ok rows) ∧
    (∀ g p1 p2, hasNode g.players p1 = true → hasNode g.players p2 = true →
       ∃ rows, find_common_teammates g p1 p2 = .ok rows) ∧
    (∀ (rows : List RosterRow), QueryResult.notFound ≠ QueryResult.ok rows) := by
  refine ⟨?_, ?_, ?_, ?_, ?_, ?_, ?_⟩
  · intro g tid today h
    simp [get_team_roster, h]
  · intro g pid h
    simp [get_player_career, h]
  · intro g pid season h
    simp [get_player_stats, h]
  · intro g name team position
    exact ⟨_, rfl⟩
  · intro g team date_from date_to competition
    exact ⟨_, rfl⟩
  · intro g p1 p2 h1 h2
    exact ⟨_, by unfold find_common_teammates; rw [if_pos (by rw [h1, h2]; rfl)]⟩
  · intro rows h
    cases h

/-- C8 witness: concrete not-found and empty-but-ok outcomes on the
sample graph. -/
theorem c8_notfound_vs_empty_witness :
    get_team_roster sampleGraph "T999" "2023-01-01" = .notFound ∧
    get_player_career sampleGraph "P999" = .notFound ∧
    get_player_stats sampleGraph "P999" none = .notFound ∧
    (∃ rows, search_player sampleGraph "zzzz" none none = .ok rows) ∧
    (∃ rows, find_common_teammates sampleGraph "P001" "P002" = .ok rows) :=
  ⟨c8_notfound_vs_empty.1 sampleGraph "T999" "2023-01-01" (by decide),
   c8_notfound_vs_empty.2.1 sampleGraph "P999" (by decide),
   c8_notfound_vs_empty.2.2.1 sampleGraph "P999" none (by decide),
   c8_notfound_vs_empty.2.2.2.1 sampleGraph "zzzz" none none,
   c8_notfound_vs_empty.2.2.2.2.2.1 sampleGraph "P001" "P002" (by decide) (by decide)⟩

/-- The sample top-scorers answer for C001/2023 on `sampleGraph`. -/
def c4SampleRows : List ScorerRow :=
  [{ player_id := "P001", name := some (.str "Gabriel Barbosa (Gabigol)"),
     goals := 1, team := some (.str "Flamengo") },
   { player_id := "P002", name := some (.str "Pedro"),
     goals := 1, team := some (.str "Flamengo") }]

/-- C4: whenever the top-scorers operation produces a row list, that
list is sorted descending by goal count (adjacent rows satisfy
`rows[i].goals ≥ rows[i+1].goals`) and holds at most `limit` entries. -/
theorem c4_top_scorers_sorted (g : Graph) (cid season : String) (limit : Nat)
    (rows : List ScorerRow)
    (h : get_competition_top_scorers g cid season limit = .ok rows) :
    rows.Pairwise (fun a b => b.goals ≤ a.goals) ∧ rows.length ≤ limit := by
  unfold get_competition_top_scorers at h
  split at h
  · injection h with h
    subst h
    constructor
    · exact List.Pairwise.imp (fun hab => by simpa using hab)
        (pairwise_sortBy (fun (a b : ScorerRow) => decide (b.goals ≤ a.goals))
          (fun a b => by
            rcases Nat.le_total b.goals a.goals with hle | hle <;> simp [hle])
          (fun a b c h1 h2 => by
            simp only [decide_eq_true_eq] at h1 h2 ⊢
            omega) _)
    · rw [length_sortBy]
      exact le_trans (List.length_filterMap_le _ _) (List.length_take_le _ _)
  · cases h

/-- C4 witness: the sample competition's answer is sorted and within the
limit. -/
theorem c4_top_scorers_sorted_witness :
    c4SampleRows.Pairwise (fun a b => b.goals ≤ a.goals) ∧ c4SampleRows.length ≤ 10 :=
  c4_top_scorers_sorted sampleGraph "C001" "2023" 10 c4SampleRows (by decide)

/-- Competition with two scorers, one of whom (PZ, two goals in two
matches) has no `PLAYS_FOR` edge at all. -/
def c10Graph : Graph :=
  let g := emptyGraph
  let g := load_team g ⟨"TA", "Alpha", "A-town", none, none, none⟩
  let g := load_team g ⟨"TB", "Beta", "B-town", none, none, none⟩
  let g := load_competition g ⟨"C001", "League", "2023", "league", 1⟩
  let g := load_player g ⟨"PZ", "Zed", none, "Brazilian", "Forward", none⟩
  let g := load_player g ⟨"PW", "Walter", none, "Brazilian", "Forward", none⟩
  let g := load_match g ⟨"M1", "2023-05-01", "TA", "TB", 3, 1, "C001", none⟩
  let g := load_match g ⟨"M2", "2023-06-01", "TA", "TB", 2, 0, "C001", none⟩
  let g := load_player_contract g ⟨"PW", "TA", "2020-01-01", none⟩
  let g := load_goal g ⟨"PZ", "M1", 10, "regular"⟩
  let g := load_goal g ⟨"PZ", "M2", 20, "regular"⟩
  let g := load_goal g ⟨"PW", "M1", 30, "regular"⟩
  g

/-- C10: a scorer with no `PLAYS_FOR` edge to any team never appears in
the top-scorers result (the team `MATCH` after the `LIMIT` is required),
and consequently the result can be shorter than the minimum of the limit
and the number of scorers: on `c10Graph` the top scorer PZ (2 goals, no
team) is dropped, leaving one row although `min limit scorers = 2`. -/
theorem c10_teamless_scorer_omitted :
    (∀ g cid season limit rows pid,
        get_competition_top_scorers g cid season limit = .ok rows →
        playerTeams g pid = [] →
        ∀ r ∈ rows, r.player_id ≠ pid) ∧
    (get_competition_top_scorers c10Graph "C001" "2023" 2 =
        .ok [{ player_id := "PW", name := some (.str "Walter"), goals := 1,
               team := some (.str "Alpha") }] ∧
     (scorerCounts c10Graph "C001" "2023").length = 2 ∧
     1 < min 2 (scorerCounts c10Graph "C001" "2023").length) := by
  constructor
  · intro g cid season limit rows pid h hteams r hr
    unfold get_competition_top_scorers at h
    split at h
    · injection h with h
      subst h
      rw [mem_sortBy, List.mem_filterMap] at hr
      obtain ⟨pc, _, hf⟩ := hr
      intro hEq
      cases hts : playerTeams g pc.1.id with
      | nil =>
        rw [hts] at hf
        cases hf
      | cons t ts =>
        rw [hts] at hf
        injection hf with hf
        have hid : r.player_id = pc.1.id := by rw [← hf]
        rw [hEq] at hid
        rw [hid] at hteams
        rw [hteams] at hts
        cases hts
    · cases h
  · refine ⟨by decide, by decide, by decide⟩

/-- C10 witness: on the concrete competition the universal part applies
— no row of the produced list is the teamless scorer PZ. -/
theorem c10_teamless_scorer_omitted_witness :
    ∀ r ∈ [{ player_id := "PW", name := some (.str "Walter"), goals := 1,
             team := some (.str "Alpha") : ScorerRow }], r.player_id ≠ "PZ" :=
  c10_teamless_scorer_omitted.1 c10Graph "C001" "2023" 2 _ "PZ" (by decide) (by decide)

/-- `setNodeAttrs` only rewrites the attribute map of the targeted node,
so a lookup sees the original node, transformed when it is the target. -/
theorem findNode_setNodeAttrs (ns : List Node) (id : String)
    (kvs : List (String × Option Val)) (pid : String) :
    findNode (setNodeAttrs ns id kvs) pid =
      (findNode ns pid).map
        (fun n => if n.id == id then { n with attrs := attrSets n.attrs kvs } else n) := by
  unfold setNodeAttrs findNode
  rw [List.find?_map]
  have hp : ((fun (n : Node) => n.id == pid) ∘ fun n =>
      if (n.id == id) = true then { id := n.id, attrs := attrSets n.attrs kvs } else n) =
      (fun (n : Node) => n.id == pid) := by
    funext n
    simp only [Function.comp_apply]
    split <;> rfl
  rw [hp]

/-- Frame property of the node update: attribute names outside the `SET`
list are untouched. -/
theorem getNodeAttr_setNodeAttrs (ns : List Node) (id : String)
    (kvs : List (String × Option Val)) (pid k : String)
    (h : ∀ kv ∈ kvs, kv.1 ≠ k) :
    getNodeAttr (setNodeAttrs ns id kvs) pid k = getNodeAttr ns pid k := by
  unfold getNodeAttr
  rw [findNode_setNodeAttrs]
  cases hfind : findNode ns pid with
  | none => rfl
  | some n =>
    rw [Option.map_some', Option.some_bind, Option.some_bind]
    by_cases hid : (n.id == id) = true
    · simp only [hid, if_true]
      exact attrGet_attrSets_notKey n.attrs kvs k h
    · simp only [hid]
      rfl

/-- Frame property of `MERGE` node creation: only the id property can be
introduced. -/
theorem getNodeAttr_mergeNode (ns : List Node) (idKey id pid k : String)
    (hk : k ≠ idKey) :
    getNodeAttr (mergeNode ns idKey id) pid k = getNodeAttr ns pid k := by
  unfold mergeNode
  split
  · rfl
  · unfold getNodeAttr findNode
    rw [List.find?_append]
    cases hfind : ns.find? (fun n => n.id == pid) with
    | some n => rfl
    | none =>
      by_cases hpid : (({ id := id, attrs := [(idKey, Val.str id)] : Node }).id == pid) = true
      · rw [@List.find?_cons_of_pos Node (fun x => x.id == pid) _ [] hpid]
        simp only [Option.or, Option.some_bind, Option.none_bind]
        simp [attrGet, Ne.symm hk]
      · rw [@List.find?_cons_of_neg Node (fun x => x.id == pid) _ [] hpid]
        rfl

/-- C7 amended: a player upsert leaves every attribute whose name is not
among the names in its `SET` clause (nor the merge-key `player_id`)
untouched, for every node — the merge-update never removes attributes
with other names; an attribute *named* in the call with a null value is
however removed, as `c7_counterexample` shows. -/
theorem c7_upsert_frame (g : Graph) (p : PlayerRec) (pid k : String)
    (h1 : k ≠ "player_id") (h2 : k ≠ "name") (h3 : k ≠ "birth_date")
    (h4 : k ≠ "nationality") (h5 : k ≠ "position") (h6 : k ≠ "jersey_number") :
    getNodeAttr (load_player g p).players pid k = getNodeAttr g.players pid k := by
  show getNodeAttr (setNodeAttrs (mergeNode g.players "player_id" p.player_id)
      p.player_id _) pid k = getNodeAttr g.players pid k
  rw [getNodeAttr_setNodeAttrs]
  · exact getNodeAttr_mergeNode g.players "player_id" p.player_id pid k h1
  · intro kv hkv
    simp only [List.mem_cons, List.not_mem_nil, or_false] at hkv
    rcases hkv with rfl | rfl | rfl | rfl | rfl
    · exact Ne.symm h2
    · exact Ne.symm h3
    · exact Ne.symm h4
    · exact Ne.symm h5
    · exact Ne.symm h6

/-- C7 witness: re-upserting P001 leaves an attribute with a name
outside the `SET` clause (here `overall_rating`) untouched. -/
theorem c7_upsert_frame_witness :
    getNodeAttr (load_player c7FirstLoad
        ⟨"P001", "Gabriel Barbosa (Gabigol)", none, "Brazilian", "Forward", some 10⟩).players
      "P001" "overall_rating" = getNodeAttr c7FirstLoad.players "P001" "overall_rating" :=
  c7_upsert_frame c7FirstLoad
    ⟨"P001", "Gabriel Barbosa (Gabigol)", none, "Brazilian", "Forward", some 10⟩
    "P001" "overall_rating"
    (by decide) (by decide) (by decide) (by decide) (by decide) (by decide)

/-- The roster date test, phrased as the specification words it. -/
theorem rosterDateOK_iff (e : Edge) (today : String) :
    rosterDateOK e today = true ↔
      (attrGet e.attrs "end_date" = none ∨
       ∃ d, attrGet e.attrs "end_date" = some (.str d) ∧ strLe today d = true) := by
  unfold rosterDateOK
  cases h : attrGet e.attrs "end_date" with
  | none => simp
  | some v => cases v <;> simp

/-- C1: whenever the roster operation answers for a team, the rows are
exactly the players having a `PLAYS_FOR` edge to the team whose
`end_date` is null or ≥ the as-of date, and the list is sorted by
(position, name) ascending. -/
theorem c1_roster_correct (g : Graph) (team_id today : String) (rows : List RosterRow)
    (hdom : ∀ e ∈ g.playsFor, e.dst = team_id → hasNode g.players e.src = true)
    (hres : get_team_roster g team_id today = .ok rows) :
    (∀ pid, (∃ r ∈ rows, r.player_id = pid) ↔
       ∃ e ∈ g.playsFor, e.src = pid ∧ e.dst = team_id ∧
         (attrGet e.attrs "end_date" = none ∨
          ∃ d, attrGet e.attrs "end_date" = some (.str d) ∧ strLe today d = true)) ∧
    rows.Pairwise (fun a b => lexKeyLe (rosterKey a) (rosterKey b) = true) := by
  unfold get_team_roster at hres
  split at hres
  case isFalse => cases hres
  case isTrue =>
    injection hres with hres
    subst hres
    constructor
    · intro pid
      constructor
      · rintro ⟨r, hr, hpid⟩
        rw [mem_sortBy, List.mem_filterMap] at hr
        obtain ⟨e, he, hfe⟩ := hr
        rw [List.mem_filter] at he
        obtain ⟨hmem, hpred⟩ := he
        rw [Bool.and_eq_true] at hpred
        obtain ⟨hdst, hdate⟩ := hpred
        cases hfind : findNode g.players e.src with
        | none => rw [hfind] at hfe; cases hfe
        | some p =>
          rw [hfind, Option.map_some'] at hfe
          injection hfe with hfe
          have hpsrc : p.id = e.src := by
            have := List.find?_some hfind
            simpa using this
          have hrid : r.player_id = p.id := by rw [← hfe]
          refine ⟨e, hmem, ?_, by simpa using hdst, (rosterDateOK_iff e today).mp hdate⟩
          rw [← hpid, hrid, hpsrc]
      · rintro ⟨e, hmem, hsrc, hdst, hdate⟩
        have hplayer : hasNode g.players e.src = true := hdom e hmem hdst
        have hex : ∃ p ∈ g.players, (p.id == e.src) = true := by
          unfold hasNode at hplayer
          exact List.any_eq_true.mp hplayer
        have hsome : (List.find? (fun p => p.id == e.src) g.players).isSome = true :=
          List.find?_isSome.mpr hex
        obtain ⟨p, hfind⟩ := Option.isSome_iff_exists.mp hsome
        have hpsrc : p.id = e.src := by
          have := List.find?_some hfind
          simpa using this
        refine ⟨{ player_id := p.id, name := attrGet p.attrs "name",
                  position := attrGet p.attrs "position",
                  jersey_number := attrGet p.attrs "jersey_number",
                  joined := attrGet e.attrs "start_date" }, ?_, by rw [hpsrc, hsrc]⟩
        rw [mem_sortBy, List.mem_filterMap]
        refine ⟨e, ?_, ?_⟩
        · rw [List.mem_filter]
          exact ⟨hmem, by
            rw [Bool.and_eq_true]
            exact ⟨by simpa using hdst, (rosterDateOK_iff e today).mpr hdate⟩⟩
        · show (findNode g.players e.src).map _ = _
          rw [show findNode g.players e.src = some p from hfind, Option.map_some']
    · exact pairwise_sortBy
        (fun (a b : RosterRow) => lexKeyLe (rosterKey a) (rosterKey b))
        (fun a b => lexKeyLe_total (rosterKey a) (rosterKey b))
        (fun a b c => lexKeyLe_trans (rosterKey a) (rosterKey b) (rosterKey c)) _

/-- The sample roster answer of T001 as of 2023-01-01. -/
def c1SampleRows : List RosterRow :=
  [{ player_id := "P001", name := some (.str "Gabriel Barbosa (Gabigol)"),
     position := some (.str "Forward"), jersey_number := some (.int 10),
     joined := some (.str "2019-01-01") },
   { player_id := "P002", name := some (.str "Pedro"),
     position := some (.str "Forward"), jersey_number := some (.int 9),
     joined := some (.str "2020-01-01") }]

/-- C1 witness: on the sample graph the roster of T001 is the concrete
row list above; P001 is a member by the exactness characterisation and
the list is sorted. -/
theorem c1_roster_correct_witness :
    (∃ e ∈ sampleGraph.playsFor, e.src = "P001" ∧ e.dst = "T001" ∧
       (attrGet e.attrs "end_date" = none ∨
        ∃ d, attrGet e.attrs "end_date" = some (.str d) ∧ strLe "2023-01-01" d = true)) ∧
    c1SampleRows.Pairwise (fun a b => lexKeyLe (rosterKey a) (rosterKey b) = true) := by
  have h := c1_roster_correct sampleGraph "T001" "2023-01-01" c1SampleRows
    (by decide) (by decide)
  exact ⟨(h.1 "P001").mp (by decide), h.2⟩

/-- Any edge of a merged list that matches the merge key carries
attributes ending with the merged `SET` list. -/
theorem mergeEdgeSet_pair_attrs (es : List Edge) (src dst : String)
    (kvs : List (String × Option Val)) (e : Edge)
    (he : e ∈ mergeEdgeSet es src dst kvs) (hs : e.src = src) (hd : e.dst = dst) :
    ∃ a, e.attrs = attrSets a kvs := by
  unfold mergeEdgeSet at he
  split at he
  · rw [List.mem_map] at he
    obtain ⟨e0, he0, hfe⟩ := he
    by_cases hp : (e0.src == src && e0.dst == dst) = true
    · rw [if_pos hp] at hfe
      exact ⟨e0.attrs, by rw [← hfe]⟩
    · rw [if_neg hp] at hfe
      subst hfe
      exact absurd (by rw [hs, hd]; simp) hp
  · rw [List.mem_append] at he
    rcases he with he | he
    · rename_i hany
      exfalso
      have : es.any (fun e => e.src == src && e.dst == dst) = true :=
        List.any_eq_true.mpr ⟨e, he, by rw [hs, hd]; simp⟩
      simp [this] at hany
    · rw [List.mem_singleton] at he
      subst he
      exact ⟨[], rfl⟩

/-- After a relationship `MERGE` at least one edge matches the key. -/
theorem mergeEdgeSet_any_pair (es : List Edge) (src dst : String)
    (kvs : List (String × Option Val)) :
    (mergeEdgeSet es src dst kvs).any (fun e => e.src == src && e.dst == dst) = true := by
  unfold mergeEdgeSet
  split
  · rename_i hany
    rw [List.any_eq_true] at hany ⊢
    obtain ⟨e, he, hpe⟩ := hany
    refine ⟨{ e with attrs := attrSets e.attrs kvs }, ?_, by exact hpe⟩
    rw [List.mem_map]
    exact ⟨e, he, by rw [if_pos hpe]⟩
  · rw [List.any_eq_true]
    exact ⟨{ src := src, dst := dst, attrs := attrSets [] kvs }, by simp, by simp⟩

/-- The in-place update of a relationship `MERGE` does not change how
many edges match the key. -/
theorem filter_map_pair_length (es : List Edge) (src dst : String)
    (kvs : List (String × Option Val)) :
    ((es.map (fun e => if e.src == src && e.dst == dst
        then { e with attrs := attrSets e.attrs kvs } else e)).filter
      (fun e => e.src == src && e.dst == dst)).length =
    (es.filter (fun e => e.src == src && e.dst == dst)).length := by
  induction es with
  | nil => rfl
  | cons e t ih =>
    simp only [List.map_cons]
    by_cases hp : (e.src == src && e.dst == dst) = true
    · rw [if_pos hp,
        @List.filter_cons_of_pos Edge (fun x => x.src == src && x.dst == dst) _ _ (by exact hp),
        @List.filter_cons_of_pos Edge (fun x => x.src == src && x.dst == dst) e t hp]
      simpa using ih
    · rw [if_neg hp,
        @List.filter_cons_of_neg Edge (fun x => x.src == src && x.dst == dst) _ _ hp,
        @List.filter_cons_of_neg Edge (fun x => x.src == src && x.dst == dst) e t hp]
      exact ih

/-- The number of key-matching edges after a relationship `MERGE`. -/
theorem mergeEdgeSet_filter_length (es : List Edge) (src dst : String)
    (kvs : List (String × Option Val)) :
    ((mergeEdgeSet es src dst kvs).filter (fun e => e.src == src && e.dst == dst)).length =
      if es.any (fun e => e.src == src && e.dst == dst) then
        (es.filter (fun e => e.src == src && e.dst == dst)).length
      else 1 := by
  unfold mergeEdgeSet
  by_cases hany : es.any (fun e => e.src == src && e.dst == dst) = true
  · rw [if_pos hany, if_pos hany]
    exact filter_map_pair_length es src dst kvs
  · rw [if_neg hany, if_neg hany, List.filter_append]
    have h1 : es.filter (fun e => e.src == src && e.dst == dst) = [] := by
      rw [List.filter_eq_nil_iff]
      intro b hb hpb
      exact hany (List.any_eq_true.mpr ⟨b, hb, hpb⟩)
    rw [h1]
    simp

/-- With at most one edge per endpoint pair (the store's invariant), at
most one edge matches a key. -/
theorem pair_filter_length_le_one (es : List Edge) (src dst : String)
    (h : es.Pairwise (fun a b => ¬(a.src = b.src ∧ a.dst = b.dst))) :
    (es.filter (fun e => e.src == src && e.dst == dst)).length ≤ 1 := by
  induction es with
  | nil => simp
  | cons e t ih =>
    rcases List.pairwise_cons.mp h with ⟨he, ht⟩
    by_cases hp : (e.src == src && e.dst == dst) = true
    · rw [@List.filter_cons_of_pos Edge (fun x => x.src == src && x.dst == dst) e t hp]
      have hnil : t.filter (fun x => x.src == src && x.dst == dst) = [] := by
        rw [List.filter_eq_nil_iff]
        intro b hb hpb
        rw [Bool.and_eq_true, beq_iff_eq, beq_iff_eq] at hp hpb
        exact he b hb ⟨hp.1.trans hpb.1.symm, hp.2.trans hpb.2.symm⟩
      rw [hnil]
      simp
    · rw [@List.filter_cons_of_neg Edge (fun x => x.src == src && x.dst == dst) e t hp]
      exact ih ht

/-- An existing key-matching edge shows up in the filter. -/
theorem pair_filter_length_pos (es : List Edge) (src dst : String)
    (h : es.any (fun e => e.src == src && e.dst == dst) = true) :
    0 < (es.filter (fun e => e.src == src && e.dst == dst)).length := by
  rw [List.any_eq_true] at h
  obtain ⟨e, he, hpe⟩ := h
  have : e ∈ es.filter (fun e => e.src == src && e.dst == dst) :=
    List.mem_filter.mpr ⟨he, hpe⟩
  exact List.length_pos.mpr (fun hnil => by rw [hnil] at this; cases this)

/-- C5: two `PLAYS_FOR` upserts for the same (player, team) pair leave
exactly one edge between the pair, carrying the second call's
`start_date` and `end_date` — the second upsert overwrites the first
rather than adding a stint. -/
theorem c5_contract_upsert_overwrites (g : Graph) (pid tid sd1 sd2 : String)
    (ed1 ed2 : Option String)
    (hwf : g.playsFor.Pairwise (fun a b => ¬(a.src = b.src ∧ a.dst = b.dst)))
    (hp : hasNode g.players pid = true) (ht : hasNode g.teams tid = true) :
    ((load_player_contract (load_player_contract g ⟨pid, tid, sd1, ed1⟩)
        ⟨pid, tid, sd2, ed2⟩).playsFor.filter
      (fun e => e.src == pid && e.dst == tid)).length = 1 ∧
    (∀ e ∈ (load_player_contract (load_player_contract g ⟨pid, tid, sd1, ed1⟩)
        ⟨pid, tid, sd2, ed2⟩).playsFor, e.src = pid → e.dst = tid →
      attrGet e.attrs "start_date" = some (.str sd2) ∧
      attrGet e.attrs "end_date" = ed2.map Val.str) := by
  have hg2 : (load_player_contract (load_player_contract g ⟨pid, tid, sd1, ed1⟩)
      ⟨pid, tid, sd2, ed2⟩).playsFor =
      mergeEdgeSet (mergeEdgeSet g.playsFor pid tid
          [("start_date", some (.str sd1)), ("end_date", ed1.map Val.str)])
        pid tid [("start_date", some (.str sd2)), ("end_date", ed2.map Val.str)] := by
    simp only [load_player_contract, hp, ht, Bool.and_self, if_true]
  constructor
  · rw [hg2, mergeEdgeSet_filter_length,
      if_pos (mergeEdgeSet_any_pair g.playsFor pid tid _),
      mergeEdgeSet_filter_length]
    by_cases hany : g.playsFor.any (fun e => e.src == pid && e.dst == tid) = true
    · rw [if_pos hany]
      have hle := pair_filter_length_le_one g.playsFor pid tid hwf
      have hpos := pair_filter_length_pos g.playsFor pid tid hany
      omega
    · rw [if_neg hany]
  · intro e he hs hd
    rw [hg2] at he
    obtain ⟨a, ha⟩ := mergeEdgeSet_pair_attrs _ _ _ _ e he hs hd
    rw [ha]
    constructor
    · show attrGet (attrSets a [("start_date", some (.str sd2)),
        ("end_date", ed2.map Val.str)]) "start_date" = some (.str sd2)
      simp only [attrSets, List.foldl]
      rw [attrGet_attrSet_ne _ _ _ _ (by decide), attrGet_attrSet_self]
    · show attrGet (attrSets a [("start_date", some (.str sd2)),
        ("end_date", ed2.map Val.str)]) "end_date" = ed2.map Val.str
      simp only [attrSets, List.foldl]
      rw [attrGet_attrSet_self]

/-- C5 witness: re-upserting P001's Flamengo contract on the sample
graph leaves exactly one `PLAYS_FOR` edge for the pair. -/
theorem c5_contract_upsert_overwrites_witness :
    ((load_player_contract (load_player_contract sampleGraph
          ⟨"P001", "T001", "2019-01-01", none⟩)
        ⟨"P001", "T001", "2024-02-02", some "2025-03-03"⟩).playsFor.filter
      (fun e => e.src == "P001" && e.dst == "T001")).length = 1 :=
  (c5_contract_upsert_overwrites sampleGraph "P001" "T001" "2019-01-01" "2024-02-02"
    none (some "2025-03-03") (by decide) (by decide) (by decide)).1

/-- Swap the two teams' fields of head-to-head statistics. -/
def H2HStats.mirror (s : H2HStats) : H2HStats :=
  { total := s.total, team1_wins := s.team2_wins, team2_wins := s.team1_wins,
    draws := s.draws, team1_goals := s.team2_goals, team2_goals := s.team1_goals }

/-- Swap the two teams' viewpoints of a head-to-head result. -/
def H2HResult.mirror : H2HResult → H2HResult
  | .notFound => .notFound
  | .noMatches => .noMatches
  | .stats s => .stats s.mirror

/-- The head-to-head match selection is symmetric in the two teams. -/
theorem h2hSelected_symm (g : Graph) (t1 t2 : String) (m : Node) :
    h2hSelected g t2 t1 m = h2hSelected g t1 t2 m := by
  unfold h2hSelected
  exact Bool.or_comm _ _

/-- The selected head-to-head rows coincide for both argument orders. -/
theorem h2hRows_symm (g : Graph) (t1 t2 : String) :
    h2hRows g t2 t1 = h2hRows g t1 t2 := by
  unfold h2hRows
  congr 1
  congr 1
  exact List.filter_congr (fun m _ => h2hSelected_symm g t1 t2 m)

/-- In a list with pairwise-distinct targets, two edges into the same
target are the same edge. -/
theorem pairwise_dst_eq (es : List Edge) (h : es.Pairwise (fun a b => a.dst ≠ b.dst))
    (a b : Edge) (ha : a ∈ es) (hb : b ∈ es) (hd : a.dst = b.dst) : a = b := by
  induction es with
  | nil => cases ha
  | cons e t ih =>
    rcases List.pairwise_cons.mp h with ⟨he, ht⟩
    rcases List.mem_cons.mp ha with rfl | ha2
    · rcases List.mem_cons.mp hb with rfl | hb2
      · rfl
      · exact absurd hd (he b hb2)
    · rcases List.mem_cons.mp hb with rfl | hb2
      · exact absurd hd.symm (he a ha2)
      · exact ih ht ha2 hb2

/-- Under the one-home-edge / one-away-edge integrity invariant, every
selected head-to-head row pairs the two requested teams, in one of the
two orientations. -/
theorem h2hRows_ok (g : Graph) (t1 t2 : String)
    (hhu : g.playedHome.Pairwise (fun a b => a.dst ≠ b.dst))
    (hau : g.playedAway.Pairwise (fun a b => a.dst ≠ b.dst))
    (r : H2HRow) (hr : r ∈ h2hRows g t1 t2) :
    (r.home_id = t1 ∧ r.away_id = t2) ∨ (r.home_id = t2 ∧ r.away_id = t1) := by
  unfold h2hRows at hr
  rw [mem_sortBy, List.mem_flatMap] at hr
  obtain ⟨m, hm, hr⟩ := hr
  rw [List.mem_filter] at hm
  obtain ⟨hmem, hsel⟩ := hm
  rw [List.mem_flatMap] at hr
  obtain ⟨he, hheM, hr⟩ := hr
  rw [List.mem_filter] at hheM
  obtain ⟨hheMem, hheDst⟩ := hheM
  rw [List.mem_filterMap] at hr
  obtain ⟨ae, haeM, hfr⟩ := hr
  rw [List.mem_filter] at haeM
  obtain ⟨haeMem, haeDst⟩ := haeM
  cases hht : findNode g.teams he.src with
  | none => rw [hht] at hfr; cases hfr
  | some ht =>
    cases hat : findNode g.teams ae.src with
    | none => rw [hht, hat] at hfr; cases hfr
    | some awt =>
      rw [hht, hat] at hfr
      injection hfr with hfr
      have hhid : r.home_id = he.src := by
        rw [← hfr]
        show ht.id = he.src
        simpa using List.find?_some hht
      have haid : r.away_id = ae.src := by
        rw [← hfr]
        show awt.id = ae.src
        simpa using List.find?_some hat
      have hheDst' : he.dst = m.id := by simpa using hheDst
      have haeDst' : ae.dst = m.id := by simpa using haeDst
      unfold h2hSelected at hsel
      rw [Bool.or_eq_true, Bool.and_eq_true, Bool.and_eq_true] at hsel
      unfold hasEdge at hsel
      rcases hsel with ⟨hh, ha⟩ | ⟨hh, ha⟩
      · left
        obtain ⟨e1, he1, hp1⟩ := List.any_eq_true.mp hh
        obtain ⟨e2, he2, hp2⟩ := List.any_eq_true.mp ha
        rw [Bool.and_eq_true, beq_iff_eq, beq_iff_eq] at hp1 hp2
        have heq1 : he = e1 := pairwise_dst_eq g.playedHome hhu he e1 hheMem he1
          (by rw [hheDst', hp1.2])
        have heq2 : ae = e2 := pairwise_dst_eq g.playedAway hau ae e2 haeMem he2
          (by rw [haeDst', hp2.2])
        exact ⟨by rw [hhid, heq1, hp1.1], by rw [haid, heq2, hp2.1]⟩
      · right
        obtain ⟨e1, he1, hp1⟩ := List.any_eq_true.mp hh
        obtain ⟨e2, he2, hp2⟩ := List.any_eq_true.mp ha
        rw [Bool.and_eq_true, beq_iff_eq, beq_iff_eq] at hp1 hp2
        have heq1 : he = e1 := pairwise_dst_eq g.playedHome hhu he e1 hheMem he1
          (by rw [hheDst', hp1.2])
        have heq2 : ae = e2 := pairwise_dst_eq g.playedAway hau ae e2 haeMem he2
          (by rw [haeDst', hp2.2])
        exact ⟨by rw [hhid, heq1, hp1.1], by rw [haid, heq2, hp2.1]⟩

/-- One accumulation step seen from the other team's viewpoint. -/
theorem h2hStep_mirror (t1 t2 : String) (hne : t1 ≠ t2) (s : H2HStats) (r : H2HRow)
    (hok : (r.home_id = t1 ∧ r.away_id = t2) ∨ (r.home_id = t2 ∧ r.away_id = t1)) :
    h2hStep t2 s.mirror r = (h2hStep t1 s r).mirror := by
  rcases hok with ⟨hh, _⟩ | ⟨hh, _⟩
  · have e1 : (r.home_id == t1) = true := by rw [hh]; simp
    have e2 : (r.home_id == t2) = false := by
      rw [hh]
      exact beq_eq_false_iff_ne.mpr hne
    rcases lt_trichotomy r.home_score r.away_score with hc | hc | hc
    · have n1 : ¬ r.home_score > r.away_score := by omega
      have n2 : ¬ r.away_score < r.home_score := by omega
      have n3 : r.home_score ≠ r.away_score := by omega
      have n4 : r.away_score ≠ r.home_score := by omega
      have n5 : r.away_score > r.home_score := by omega
      simp [h2hStep, H2HStats.mirror, e1, e2, hc, n1, n2, n3, n4, n5]
    · have n1 : ¬ r.home_score > r.away_score := by omega
      have n2 : ¬ r.home_score < r.away_score := by omega
      have n3 : ¬ r.away_score > r.home_score := by omega
      have n4 : ¬ r.away_score < r.home_score := by omega
      simp [h2hStep, H2HStats.mirror, e1, e2, hc, n1, n2, n3, n4]
    · have n1 : ¬ r.home_score < r.away_score := by omega
      have n2 : ¬ r.away_score > r.home_score := by omega
      have n3 : r.home_score ≠ r.away_score := by omega
      have n4 : r.away_score ≠ r.home_score := by omega
      have n5 : r.away_score < r.home_score := by omega
      simp [h2hStep, H2HStats.mirror, e1, e2, hc, n1, n2, n3, n4, n5]
  · have e2 : (r.home_id == t2) = true := by rw [hh]; simp
    have e1 : (r.home_id == t1) = false := by
      rw [hh]
      exact beq_eq_false_iff_ne.mpr (Ne.symm hne)
    rcases lt_trichotomy r.home_score r.away_score with hc | hc | hc
    · have n1 : ¬ r.home_score > r.away_score := by omega
      have n2 : ¬ r.away_score < r.home_score := by omega
      have n3 : r.home_score ≠ r.away_score := by omega
      have n4 : r.away_score ≠ r.home_score := by omega
      have n5 : r.away_score > r.home_score := by omega
      simp [h2hStep, H2HStats.mirror, e1, e2, hc, n1, n2, n3, n4, n5]
    · have n1 : ¬ r.home_score > r.away_score := by omega
      have n2 : ¬ r.home_score < r.away_score := by omega
      have n3 : ¬ r.away_score > r.home_score := by omega
      have n4 : ¬ r.away_score < r.home_score := by omega
      simp [h2hStep, H2HStats.mirror, e1, e2, hc, n1, n2, n3, n4]
    · have n1 : ¬ r.home_score < r.away_score := by omega
      have n2 : ¬ r.away_score > r.home_score := by omega
      have n3 : r.home_score ≠ r.away_score := by omega
      have n4 : r.away_score ≠ r.home_score := by omega
      have n5 : r.away_score < r.home_score := by omega
      simp [h2hStep, H2HStats.mirror, e1, e2, hc, n1, n2, n3, n4, n5]

/-- Folding the accumulation from the other team's viewpoint yields the
mirrored statistics. -/
theorem foldl_h2hStep_mirror (t1 t2 : String) (hne : t1 ≠ t2) :
    ∀ (rows : List H2HRow),
      (∀ r ∈ rows, (r.home_id = t1 ∧ r.away_id = t2) ∨ (r.home_id = t2 ∧ r.away_id = t1)) →
      ∀ s : H2HStats,
        rows.foldl (h2hStep t2) s.mirror = (rows.foldl (h2hStep t1) s).mirror
  | [], _, s => rfl
  | r :: t, hok, s => by
    rw [List.foldl_cons, List.foldl_cons,
      h2hStep_mirror t1 t2 hne s r (hok r (by simp))]
    exact foldl_h2hStep_mirror t1 t2 hne t (fun x hx => hok x (by simp [hx]))
      (h2hStep t1 s r)

/-- C3: for two distinct existing teams, on a graph satisfying the
one-home-edge / one-away-edge integrity invariant, the head-to-head
results of the two argument orders are mirror images: wins and goal
totals swapped, draw count and total match count equal (`notFound` and
`noMatches` outcomes also coincide). -/
theorem c3_head_to_head_mirror (g : Graph) (t1 t2 : String)
    (hhu : g.playedHome.Pairwise (fun a b => a.dst ≠ b.dst))
    (hau : g.playedAway.Pairwise (fun a b => a.dst ≠ b.dst))
    (h1 : hasNode g.teams t1 = true) (h2 : hasNode g.teams t2 = true)
    (hne : t1 ≠ t2) :
    get_head_to_head g t2 t1 = (get_head_to_head g t1 t2).mirror := by
  unfold get_head_to_head
  rw [h1, h2, h2hRows_symm g t1 t2]
  simp only [Bool.and_self, if_true]
  by_cases hemp : (h2hRows g t1 t2).isEmpty
  · rw [if_pos hemp, if_pos hemp]
    rfl
  · rw [if_neg hemp, if_neg hemp]
    show H2HResult.stats _ = H2HResult.mirror (H2HResult.stats _)
    unfold H2HResult.mirror
    congr 1
    exact foldl_h2hStep_mirror t1 t2 hne (h2hRows g t1 t2)
      (fun r hr => h2hRows_ok g t1 t2 hhu hau r hr)
      { total := (h2hRows g t1 t2).length, team1_wins := 0, team2_wins := 0,
        draws := 0, team1_goals := 0, team2_goals := 0 }

/-- C3 witness: on the sample graph, the T002-vs-T001 head-to-head is
the mirror of the T001-vs-T002 one. -/
theorem c3_head_to_head_mirror_witness :
    get_head_to_head sampleGraph "T002" "T001" =
      (get_head_to_head sampleGraph "T001" "T002").mirror :=
  c3_head_to_head_mirror sampleGraph "T001" "T002"
    (by decide) (by decide) (by decide) (by decide) (by decide)

end BrazilSoccer
